import Mathlib

/-!
Verification of the mpvif repository (mpvif-plugin and mpvif-motion, two mpv
C plugins that forward pointer position, clipboard contents and window titles
to a remote Wayland session) against its natural-language specification.

The development shallowly embeds the coordination logic of the two C source
files (src/mpvif-plugin/mpvif-plugin.c and src/mpvif-motion/mpvif-motion.c):
pure computations become Lean functions over `Int` (C narrowing conversions
to `int32_t` are made explicit with `toInt32`), event handlers that mutate
global state become step functions on explicit state records, and handlers
that emit protocol messages become trace-producing functions.
-/

namespace Mpvif

/-- Wrap an integer into the range of a C `int32_t`, modelling the
implementation-defined conversion from a wider integer to `int32_t`
(two's complement wrap-around). -/
def toInt32 (n : Int) : Int :=
  (n + 2 ^ 31) % 2 ^ 32 - 2 ^ 31

theorem toInt32_lb (n : Int) : -2 ^ 31 ≤ toInt32 n := by
  unfold toInt32
  omega

theorem toInt32_ub (n : Int) : toInt32 n < 2 ^ 31 := by
  unfold toInt32
  omega

theorem toInt32_eq_self {n : Int} (h1 : -2 ^ 31 ≤ n) (h2 : n < 2 ^ 31) :
    toInt32 n = n := by
  unfold toInt32
  omega

/-- Host pointer position, from the observed `mouse-pos` property
(`struct mouse_pos_values` in mpvif-plugin.c, fields are `int64_t`). -/
structure MousePosValues where
  x : Int
  y : Int
  deriving DecidableEq

/-- Viewport margins and on-screen-display size, from the observed
`osd-dimensions` property (`struct osd_dimensions_values`). -/
structure OsdDimensionsValues where
  ml : Int
  mr : Int
  mt : Int
  mb : Int
  w : Int
  h : Int
  deriving DecidableEq

/-- Video frame size, from the observed `video-params` property
(`struct video_params_values`). -/
structure VideoParamsValues where
  w : Int
  h : Int
  deriving DecidableEq

/-- Embedding of `pchg_mouse_pos` from mpvif-plugin.c.  Returns `none` when
the update is suppressed (no virtual pointer bound, or a zero effective
viewport dimension), and `some (x, y)` for the position carried by the
emitted `motion_absolute` + `frame` pair.  The denominators are computed
into C `int32_t` variables and the mapped positions are assigned to
`int32_t`, which `toInt32` models; `Int.tdiv` models C's
truncating signed division. -/
def pchg_mouse_pos (virtualPointerBound : Bool) (mouse : MousePosValues)
    (osd : OsdDimensionsValues) (video : VideoParamsValues) :
    Option (Int × Int) :=
  if virtualPointerBound = false then none else
  let denominator_x := toInt32 (osd.w - osd.ml - osd.mr)
  let denominator_y := toInt32 (osd.h - osd.mt - osd.mb)
  if denominator_x = 0 ∨ denominator_y = 0 then none
  else
    let video_pos_x := toInt32 (Int.tdiv ((mouse.x - osd.ml) * video.w) denominator_x)
    let video_pos_y := toInt32 (Int.tdiv ((mouse.y - osd.mt) * video.h) denominator_y)
    let video_pos_x := max video_pos_x 0
    let video_pos_y := max video_pos_y 0
    let video_pos_x := toInt32 (min video_pos_x video.w)
    let video_pos_y := toInt32 (min video_pos_y video.h)
    some (video_pos_x, video_pos_y)

/-- Result of the mpvif-motion pointer mapping: either the position carried
by the emitted motion event, or the fact that a division by zero was
reached (undefined behaviour in C). -/
inductive MotionResult where
  | divisionByZero
  | emits (x : Int) (y : Int)
  deriving DecidableEq

/-- Embedding of `mouse_pos_changed` from mpvif-motion.c.  All values are
read into C `int32_t` variables.  This variant has no guard on the
denominators: when an effective viewport dimension is zero it performs a
division by zero, which is undefined behaviour in C; the embedding returns
`MotionResult.divisionByZero` in exactly that case.  On the defined path it
returns the position carried by the emitted `motion_absolute` + `frame`
pair (this variant clamps only the negative side). -/
def mouse_pos_changed (mouse : MousePosValues) (osd : OsdDimensionsValues)
    (video : VideoParamsValues) : MotionResult :=
  let mouse_pos_x := toInt32 mouse.x
  let mouse_pos_y := toInt32 mouse.y
  let osd_ml := toInt32 osd.ml
  let osd_mr := toInt32 osd.mr
  let osd_mt := toInt32 osd.mt
  let osd_mb := toInt32 osd.mb
  let osd_w := toInt32 osd.w
  let osd_h := toInt32 osd.h
  let video_w := toInt32 video.w
  let video_h := toInt32 video.h
  if osd_w - osd_ml - osd_mr = 0 ∨ osd_h - osd_mt - osd_mb = 0 then
    MotionResult.divisionByZero
  else
    let video_pos_x := Int.tdiv ((mouse_pos_x - osd_ml) * video_w) (osd_w - osd_ml - osd_mr)
    let video_pos_y := Int.tdiv ((mouse_pos_y - osd_mt) * video_h) (osd_h - osd_mt - osd_mb)
    let video_pos_x := if video_pos_x < 0 then 0 else video_pos_x
    let video_pos_y := if video_pos_y < 0 then 0 else video_pos_y
    MotionResult.emits video_pos_x video_pos_y

/-- C1 evaluated at the failing input: for a viewport whose effective
width collapses to zero (`w=100, ml=60, mr=40`), the mpvif-motion variant
`mouse_pos_changed` reaches a division by zero (undefined behaviour)
instead of suppressing the update, while the guarded plugin variant
`pchg_mouse_pos` suppresses it as the claim requires. -/
theorem degenerate_viewport_motion_variant_divides :
    mouse_pos_changed ⟨50, 40⟩ ⟨60, 40, 0, 0, 100, 80⟩ ⟨1920, 1080⟩ =
      MotionResult.divisionByZero ∧
    pchg_mouse_pos true ⟨50, 40⟩ ⟨60, 40, 0, 0, 100, 80⟩ ⟨1920, 1080⟩ = none := by
  constructor <;> rfl

theorem clamp_in_range (q vdim : Int) (h : 0 ≤ vdim) :
    0 ≤ toInt32 (min (max (toInt32 q) 0) vdim) ∧
    toInt32 (min (max (toInt32 q) 0) vdim) ≤ vdim := by
  have h2 := toInt32_ub q
  have hmax1 : (0 : Int) ≤ max (toInt32 q) 0 := le_max_right _ _
  have hmax2 : max (toInt32 q) 0 < 2 ^ 31 := max_lt h2 (by norm_num)
  have hmin1 : 0 ≤ min (max (toInt32 q) 0) vdim := le_min hmax1 h
  have hmin2 : min (max (toInt32 q) 0) vdim < 2 ^ 31 :=
    lt_of_le_of_lt (min_le_left _ _) hmax2
  have heq : toInt32 (min (max (toInt32 q) 0) vdim) =
      min (max (toInt32 q) 0) vdim :=
    toInt32_eq_self (by omega) hmin2
  rw [heq]
  exact ⟨hmin1, min_le_right _ _⟩

/-- C4: with the host pointer at `(100, 50)`, margins `ml=10, mr=10,
mt=20, mb=0`, viewport `220x120` and frame `1920x1080`, the emitted motion
event carries the mapped position `(864, 324)`; and for every input with a
non-negative frame size, any emitted position lies within
`[0, frameWidth] x [0, frameHeight]` (the clamping steps of
`pchg_mouse_pos` guarantee it). -/
theorem scenario_a_mapping :
    pchg_mouse_pos true ⟨100, 50⟩ ⟨10, 10, 20, 0, 220, 120⟩ ⟨1920, 1080⟩ =
      some (864, 324) ∧
    ∀ (b : Bool) (mouse : MousePosValues) (osd : OsdDimensionsValues)
      (video : VideoParamsValues) (x y : Int), 0 ≤ video.w → 0 ≤ video.h →
      pchg_mouse_pos b mouse osd video = some (x, y) →
      0 ≤ x ∧ x ≤ video.w ∧ 0 ≤ y ∧ y ≤ video.h := by
  constructor
  · rfl
  · intro b mouse osd video x y hw hh hmap
    unfold pchg_mouse_pos at hmap
    rcases b with _ | _
    · simp at hmap
    · simp only [Bool.true_eq_false, if_false] at hmap
      split at hmap
      · exact absurd hmap (by simp)
      · rw [Option.some_inj, Prod.mk.injEq] at hmap
        obtain ⟨hx, hy⟩ := hmap
        rw [← hx, ← hy]
        obtain ⟨hx1, hx2⟩ := clamp_in_range
          (Int.tdiv ((mouse.x - osd.ml) * video.w)
            (toInt32 (osd.w - osd.ml - osd.mr))) video.w hw
        obtain ⟨hy1, hy2⟩ := clamp_in_range
          (Int.tdiv ((mouse.y - osd.mt) * video.h)
            (toInt32 (osd.h - osd.mt - osd.mb))) video.h hh
        exact ⟨hx1, hx2, hy1, hy2⟩

/-- Witness for C4: the bounds part applied at scenario A's concrete
input, with the non-negativity hypotheses discharged there. -/
theorem scenario_a_mapping_witness :
    0 ≤ (864 : Int) ∧ (864 : Int) ≤ 1920 ∧ 0 ≤ (324 : Int) ∧ (324 : Int) ≤ 1080 :=
  scenario_a_mapping.2 true ⟨100, 50⟩ ⟨10, 10, 20, 0, 220, 120⟩ ⟨1920, 1080⟩
    864 324 (by decide) (by decide) scenario_a_mapping.1

/-! ## Gating state machine (virtual pointer and data control device)

Abstraction of the global state of mpvif-plugin.c that the gating handlers
touch: each nullable global object pointer becomes a `Bool` recording
whether the object is currently bound (`remote_output`/`remote_seat` record
whether the configured output/seat has been resolved by name;
`selection_source`/`primary_selection_source` record whether the
corresponding `struct wayland_data_control_source` has a bound `obj`). -/

/-- Gating-relevant global state of mpvif-plugin.c. -/
structure PluginState where
  remote_output : Bool
  remote_seat : Bool
  input_forwarding_enabled : Bool
  force_grab_cursor_enabled : Bool
  virtual_pointer : Bool
  data_control_device : Bool
  selection_source : Bool
  primary_selection_source : Bool
  deriving DecidableEq

/-- Embedding of `should_create_virtual_pointer` from mpvif-plugin.c. -/
def should_create_virtual_pointer (s : PluginState) : Bool :=
  !s.virtual_pointer && s.remote_output && s.remote_seat &&
    s.input_forwarding_enabled && !s.force_grab_cursor_enabled

/-- Embedding of `should_create_data_control_device` from mpvif-plugin.c. -/
def should_create_data_control_device (s : PluginState) : Bool :=
  !s.data_control_device && s.remote_seat && s.input_forwarding_enabled

/-- Embedding of `create_virtual_pointer` (object creation only; the
mouse-pos property observation it also performs is not modelled). -/
def create_virtual_pointer (s : PluginState) : PluginState :=
  { s with virtual_pointer := true }

/-- Embedding of `destroy_virtual_pointer`. -/
def destroy_virtual_pointer (s : PluginState) : PluginState :=
  { s with virtual_pointer := false }

/-- Embedding of `create_data_control_device`. -/
def create_data_control_device (s : PluginState) : PluginState :=
  { s with data_control_device := true }

/-- Embedding of `destroy_data_control_device`. -/
def destroy_data_control_device (s : PluginState) : PluginState :=
  { s with data_control_device := false }

/-- The events that can change a gating input during the reactor loop,
with the data each handler inspects: whether a received name matches the
configured output/seat name, whether a removed global is the currently
resolved one, and the new value of an observed boolean flag. -/
inductive GatingEvent where
  | output_name (nameMatch : Bool)
  | registry_remove_output (isConfigured : Bool)
  | seat_name (nameMatch : Bool)
  | registry_remove_seat (isConfigured : Bool)
  | input_forwarding (v : Bool)
  | force_grab_cursor (v : Bool)
  | device_finished
  deriving DecidableEq

/-- One step of the gating state machine.  Each arm is translated from the
corresponding handler in mpvif-plugin.c: `output_name`, `destroy_output`
(via `registry_global_remove`), `seat_name`, `destroy_seat`,
`pchg_wayland_remote_input_forwarding`,
`pchg_wayland_remote_force_grab_cursor`, and
`data_control_device_finished`. -/
def gatingStep : GatingEvent → PluginState → PluginState
  | .output_name m, s =>
    if m then
      let s := { s with remote_output := true }
      if should_create_virtual_pointer s then create_virtual_pointer s else s
    else s
  | .registry_remove_output c, s =>
    if c then
      let s := if s.virtual_pointer then destroy_virtual_pointer s else s
      { s with remote_output := false }
    else s
  | .seat_name m, s =>
    if m then
      let s := { s with remote_seat := true }
      let s := if should_create_virtual_pointer s then create_virtual_pointer s else s
      if should_create_data_control_device s then create_data_control_device s else s
    else s
  | .registry_remove_seat c, s =>
    if c then
      let s := if s.virtual_pointer then destroy_virtual_pointer s else s
      let s := if s.data_control_device then destroy_data_control_device s else s
      { s with remote_seat := false }
    else s
  | .input_forwarding v, s =>
    let s := { s with input_forwarding_enabled := v }
    let s := if !s.input_forwarding_enabled && s.virtual_pointer then
      destroy_virtual_pointer s else s
    if should_create_virtual_pointer s then create_virtual_pointer s else s
  | .force_grab_cursor v, s =>
    let s := { s with force_grab_cursor_enabled := v }
    let s := if s.force_grab_cursor_enabled && s.virtual_pointer then
      destroy_virtual_pointer s else s
    if should_create_virtual_pointer s then create_virtual_pointer s else s
  | .device_finished, s => destroy_data_control_device s

/-- The gating predicate of the spec: the virtual pointer is bound iff the
configured output and seat are resolved, input forwarding is enabled and
force-grab-cursor is disabled. -/
def pointerGatingInvariant (s : PluginState) : Prop :=
  s.virtual_pointer = (s.remote_output && s.remote_seat &&
    s.input_forwarding_enabled && !s.force_grab_cursor_enabled)

instance (s : PluginState) : Decidable (pointerGatingInvariant s) := by
  unfold pointerGatingInvariant
  infer_instance

/-- C3: after any single gating-input change (configured output resolved or
removed, configured seat resolved or removed, input-forwarding flag toggled,
force-grab-cursor flag toggled) and its re-evaluation, the virtual pointer
object is bound iff the gating predicate holds: if
`pointerGatingInvariant` held before the event, it holds after the
handler (which re-evaluates via `should_create_virtual_pointer`) runs. -/
theorem pointer_gating_invariant_preserved (e : GatingEvent) (s : PluginState)
    (h : pointerGatingInvariant s) : pointerGatingInvariant (gatingStep e s) := by
  rcases s with ⟨o, se, fwd, grab, vp, dc, sel, psel⟩
  revert h
  revert o se fwd grab vp dc sel psel
  cases e with
  | output_name b => revert b; decide
  | registry_remove_output b => revert b; decide
  | seat_name b => revert b; decide
  | registry_remove_seat b => revert b; decide
  | input_forwarding b => revert b; decide
  | force_grab_cursor b => revert b; decide
  | device_finished => decide

/-- Witness for C3: concrete run of the preservation theorem.  Start from
the state where everything is resolved and the pointer is bound, disable
input forwarding: the invariant still holds (the pointer was destroyed). -/
theorem pointer_gating_invariant_preserved_witness :
    pointerGatingInvariant
      (gatingStep (.input_forwarding false)
        ⟨true, true, true, false, true, true, false, false⟩) :=
  pointer_gating_invariant_preserved (.input_forwarding false)
    ⟨true, true, true, false, true, true, false, false⟩ (by decide)

/-- C10: a change of the input-forwarding flag alters only the
virtual-pointer binding: the data-control device and both selection sources
are untouched by `pchg_wayland_remote_input_forwarding`; moreover across
all gating events the device is created only when the configured seat's
name resolves, and destroyed only on removal of the configured seat or on
a device `finished` event. -/
theorem input_forwarding_only_affects_pointer :
    (∀ v s, (gatingStep (.input_forwarding v) s).data_control_device =
        s.data_control_device ∧
      (gatingStep (.input_forwarding v) s).selection_source = s.selection_source ∧
      (gatingStep (.input_forwarding v) s).primary_selection_source =
        s.primary_selection_source) ∧
    (∀ e s, s.data_control_device = false →
      (gatingStep e s).data_control_device = true → e = .seat_name true) ∧
    (∀ e s, s.data_control_device = true →
      (gatingStep e s).data_control_device = false →
      e = .registry_remove_seat true ∨ e = .device_finished) := by
  refine ⟨?_, ?_, ?_⟩
  · intro v s
    rcases s with ⟨o, se, fwd, grab, vp, dc, sel, psel⟩
    revert v o se fwd grab vp dc sel psel
    decide
  · intro e s
    rcases s with ⟨o, se, fwd, grab, vp, dc, sel, psel⟩
    revert o se fwd grab vp dc sel psel
    cases e with
    | output_name b => revert b; decide
    | registry_remove_output b => revert b; decide
    | seat_name b => revert b; decide
    | registry_remove_seat b => revert b; decide
    | input_forwarding b => revert b; decide
    | force_grab_cursor b => revert b; decide
    | device_finished => decide
  · intro e s
    rcases s with ⟨o, se, fwd, grab, vp, dc, sel, psel⟩
    revert o se fwd grab vp dc sel psel
    cases e with
    | output_name b => revert b; decide
    | registry_remove_output b => revert b; decide
    | seat_name b => revert b; decide
    | registry_remove_seat b => revert b; decide
    | input_forwarding b => revert b; decide
    | force_grab_cursor b => revert b; decide
    | device_finished => decide

/-- Witness for C10: disabling forwarding leaves a bound device bound, and
the device-creating event from the unresolved-seat state is the seat-name
resolution. -/
theorem input_forwarding_only_affects_pointer_witness :
    (gatingStep (.input_forwarding false)
        ⟨true, true, true, false, true, true, true, true⟩).data_control_device =
      (⟨true, true, true, false, true, true, true, true⟩ :
        PluginState).data_control_device ∧
    GatingEvent.seat_name true = .seat_name true :=
  ⟨(input_forwarding_only_affects_pointer.1 false
      ⟨true, true, true, false, true, true, true, true⟩).1,
    input_forwarding_only_affects_pointer.2.1 (.seat_name true)
      ⟨true, true, true, false, true, false, false, false⟩ (by decide) (by decide)⟩

/-! ## Window eligibility tracker -/

/-- Per-window state accumulated from toplevel protocol events
(`struct wayland_toplevel_handle`; `title`/`app_id` are `NULL` until the
namesake event arrives, which `Option` models). -/
structure WaylandToplevelHandle where
  title : Option String
  app_id : Option String
  visible_on_remote_output : Bool
  fullscreen : Bool
  deriving DecidableEq

/-- Embedding of `is_eligible_toplevel` from mpvif-plugin.c: the C code
requires non-NULL title and app id and the fullscreen flag (the
visibility-on-remote-output field is tracked but not consulted; a FIXME
comment in the source explains it was left out to work around a
sway/wlroots event-ordering bug). -/
def is_eligible_toplevel (tl : WaylandToplevelHandle) : Bool :=
  tl.title.isSome && tl.app_id.isSome && tl.fullscreen

/-- The eligibility predicate as the spec words it: title and app id set,
fullscreen, and (stricter variant) visible on the configured output.
Stated for comparison with `is_eligible_toplevel`. -/
def is_eligible_toplevel_spec (tl : WaylandToplevelHandle) : Bool :=
  tl.title.isSome && tl.app_id.isSome && tl.fullscreen &&
    tl.visible_on_remote_output

/-- Title update pushed to the host by a commit, if any. -/
inductive TitleAction where
  | setFullscreenTitle
  | setGenericTitle
  | noChange
  deriving DecidableEq

/-- Embedding of `toplevel_handle_done` from mpvif-plugin.c: `isCurrent`
states whether `current_eligible_toplevel == tl` on entry; the result is
whether `tl` is the current eligible toplevel afterwards, together with
the title update performed. -/
def toplevel_handle_done (isCurrent : Bool) (tl : WaylandToplevelHandle) :
    Bool × TitleAction :=
  if is_eligible_toplevel tl then
    if isCurrent then (true, .noChange) else (true, .setFullscreenTitle)
  else
    if isCurrent then (false, .setGenericTitle) else (false, .noChange)

/-! ## Clipboard mirror: remote offers (mpvif-plugin.c) -/

/-- The UTF-8 or ambiguous text MIME types, `utf8_mimes` in
mpvif-plugin.c, in source order. -/
def utf8_mimes : List String :=
  ["text/plain;charset=utf-8", "text/plain", "TEXT", "STRING", "UTF8_STRING"]

/-- Offer-tracking globals of mpvif-plugin.c: `dc_offer_mime_idx` (C `int`,
`-1` when no candidate has been chosen yet) and `dc_offer_is_our_own`. -/
structure DcOfferState where
  dc_offer_mime_idx : Int
  dc_offer_is_our_own : Bool
  deriving DecidableEq

/-- The offer-tracking state right after `data_control_device_data_offer`
announced a new offer (`dc_offer_mime_idx = -1`, flag cleared). -/
def initialOfferState : DcOfferState := ⟨-1, false⟩

/-- Embedding of `data_control_offer_offer` from mpvif-plugin.c: one MIME
candidate arriving on the tracked offer.  `custom_mime_type_name` is the
process-unique marker MIME type. -/
def data_control_offer_offer (custom_mime_type_name : String)
    (s : DcOfferState) (mime_type : String) : DcOfferState :=
  if s.dc_offer_is_our_own then s
  else if mime_type = custom_mime_type_name then
    { s with dc_offer_is_our_own := true }
  else if s.dc_offer_mime_idx = 0 then s
  else
    match utf8_mimes.findIdx? (fun m => m = mime_type) with
    | some i => { s with dc_offer_mime_idx := (i : Int) }
    | none => s

/-- Offer-tracking state after all announced MIME candidates of one offer
have been processed in order. -/
def processOfferMimes (custom : String) (mimes : List String) : DcOfferState :=
  mimes.foldl (data_control_offer_offer custom) initialOfferState

/-- The receive condition of `handle_selection` in mpvif-plugin.c: the
blocking `receive_offer` is performed iff the offer is not self-originated
and some MIME candidate was chosen. -/
def offer_receive_performed (s : DcOfferState) : Bool :=
  !s.dc_offer_is_our_own && (s.dc_offer_mime_idx != -1)

theorem data_control_offer_offer_of_own {c : String} {s : DcOfferState}
    (h : s.dc_offer_is_our_own = true) (m : String) :
    data_control_offer_offer c s m = s := by
  unfold data_control_offer_offer
  simp [h]

theorem foldl_offer_of_own {c : String} {s : DcOfferState}
    (h : s.dc_offer_is_our_own = true) (ms : List String) :
    ms.foldl (data_control_offer_offer c) s = s := by
  induction ms with
  | nil => rfl
  | cons m rest ih =>
    rw [List.foldl_cons, data_control_offer_offer_of_own h, ih]

theorem foldl_offer_own_of_mem {c : String} (ms : List String) :
    ∀ s : DcOfferState, c ∈ ms →
      (ms.foldl (data_control_offer_offer c) s).dc_offer_is_our_own = true := by
  induction ms with
  | nil => intro s h; cases h
  | cons m rest ih =>
    intro s h
    rw [List.foldl_cons]
    rcases List.mem_cons.mp h with rfl | hrest
    · by_cases hown : s.dc_offer_is_our_own = true
      · rw [data_control_offer_offer_of_own hown,
          foldl_offer_of_own hown]
        exact hown
      · have hstep : (data_control_offer_offer c s c).dc_offer_is_our_own = true := by
          unfold data_control_offer_offer
          simp [hown]
        rw [foldl_offer_of_own hstep]
        exact hstep
    · exact ih _ hrest

/-- Counterexample for C2 as stated: a fullscreen toplevel with title and
app id set but not visible on the configured remote output is eligible in
the code, while the spec's predicate (with the visibility conjunct) says
it is not. -/
theorem is_eligible_visibility_counterexample :
    is_eligible_toplevel ⟨some "Foo", some "bar", false, true⟩ = true ∧
    is_eligible_toplevel_spec ⟨some "Foo", some "bar", false, true⟩ = false := by
  constructor <;> rfl

/-- C2 (amended): the eligibility predicate evaluated on commit holds iff
the window's title is set, its application id is set and it is marked
fullscreen; visibility on the configured target output is tracked but not
required.  Stated through the commit handler: after
`toplevel_handle_done`, the committed window is the current eligible
toplevel exactly under those three conditions. -/
theorem eligibility_on_commit (isCurrent : Bool) (tl : WaylandToplevelHandle) :
    (toplevel_handle_done isCurrent tl).1 =
      (tl.title.isSome && tl.app_id.isSome && tl.fullscreen) := by
  unfold toplevel_handle_done is_eligible_toplevel
  split
  · next h => cases isCurrent <;> simp_all
  · next h => cases isCurrent <;> simp_all

/-- C5: an offer whose announced MIME-type set includes the process-unique
marker MIME type is never read back: after all candidates are processed,
`handle_selection`'s receive condition is false, so the blocking receive
is not performed and no clipboard text is pushed to the host — regardless
of the other MIME types announced and of their order. -/
theorem self_echo_suppressed (custom : String) (mimes : List String)
    (h : custom ∈ mimes) :
    offer_receive_performed (processOfferMimes custom mimes) = false := by
  unfold offer_receive_performed processOfferMimes
  rw [foldl_offer_own_of_mem mimes initialOfferState h]
  rfl

/-- Witness for C5: an offer announcing the marker alongside ordinary text
MIME types is not received. -/
theorem self_echo_suppressed_witness :
    offer_receive_performed
      (processOfferMimes "x-mpvif-plugin-00000000"
        ["text/plain", "x-mpvif-plugin-00000000", "STRING"]) = false :=
  self_echo_suppressed "x-mpvif-plugin-00000000"
    ["text/plain", "x-mpvif-plugin-00000000", "STRING"] (by decide)

/-- Counterexample for C8 as stated: after the candidate "text/plain"
has matched the UTF-8 table (index 1), a later candidate "STRING" still
changes the choice to index 3 — the first UTF-8 exact match does not win
unless it is index 0. -/
theorem mime_choice_counterexample :
    (processOfferMimes "x-mpvif-plugin-00000000"
        ["text/plain"]).dc_offer_mime_idx = 1 ∧
    (processOfferMimes "x-mpvif-plugin-00000000"
        ["text/plain", "STRING"]).dc_offer_mime_idx = 3 := by
  constructor <;> rfl

/-- C8 (amended): the chosen MIME candidate is frozen only once the
most-preferred table entry (index 0, "text/plain;charset=utf-8") has
matched — later candidates then no longer change the choice; otherwise
each later candidate that matches the UTF-8 table overwrites the previous
choice (the last match wins): whenever the state is not self-originated,
the current index is not 0 and the arriving candidate is not the marker
but matches the table at index `i`, the choice becomes `i`.  And once the
process-unique marker matches, the offer state is frozen entirely: no
further candidate is considered for selection. -/
theorem mime_choice_characterization :
    (∀ (custom : String) (ms : List String) (s : DcOfferState),
      s.dc_offer_mime_idx = 0 →
      (ms.foldl (data_control_offer_offer custom) s).dc_offer_mime_idx = 0) ∧
    (∀ (custom m : String) (s : DcOfferState) (i : Nat),
      s.dc_offer_is_our_own = false → s.dc_offer_mime_idx ≠ 0 →
      m ≠ custom → utf8_mimes.findIdx? (fun u => u = m) = some i →
      (data_control_offer_offer custom s m).dc_offer_mime_idx = (i : Int)) ∧
    (∀ (custom : String) (ms : List String) (s : DcOfferState),
      s.dc_offer_is_our_own = true →
      ms.foldl (data_control_offer_offer custom) s = s) := by
  refine ⟨?_, ?_, ?_⟩
  · intro custom ms
    induction ms with
    | nil => intro s h; exact h
    | cons m rest ih =>
      intro s h
      rw [List.foldl_cons]
      apply ih
      unfold data_control_offer_offer
      by_cases hown : s.dc_offer_is_our_own = true
      · simp [hown, h]
      · by_cases hm : m = custom <;> simp [hown, hm, h]
  · intro custom m s i hown hidx hm hfind
    unfold data_control_offer_offer
    simp [hown, hm, hidx, hfind]
  · intro custom ms s h
    exact foldl_offer_of_own h ms

/-- Witness for C8 (amended): with index 0 already chosen, a later
"STRING" candidate does not change the choice; with index 1 chosen, a
later "STRING" candidate overwrites the choice to 3; with the marker
already matched, processing further candidates leaves the state
unchanged. -/
theorem mime_choice_characterization_witness :
    ((["STRING"] : List String).foldl
        (data_control_offer_offer "x-mpvif-plugin-00000000")
        ⟨0, false⟩).dc_offer_mime_idx = 0 ∧
    (data_control_offer_offer "x-mpvif-plugin-00000000" ⟨1, false⟩
        "STRING").dc_offer_mime_idx = (3 : Int) ∧
    (["text/plain"] : List String).foldl
        (data_control_offer_offer "x-mpvif-plugin-00000000")
        ⟨-1, true⟩ = ⟨-1, true⟩ :=
  ⟨mime_choice_characterization.1 "x-mpvif-plugin-00000000" ["STRING"]
      ⟨0, false⟩ rfl,
    mime_choice_characterization.2.1 "x-mpvif-plugin-00000000" "STRING"
      ⟨1, false⟩ 3 rfl (by decide) (by decide) rfl,
    mime_choice_characterization.2.2 "x-mpvif-plugin-00000000" ["text/plain"]
      ⟨-1, true⟩ rfl⟩

/-! ## Clipboard mirror: host-side selection changes -/

/-- Remote-protocol requests issued by `update_remote_selection`, in
order.  `setSelection primary sourceBound` is
`ext_data_control_device_v1_set_selection` /
`..._set_primary_selection`, with `sourceBound = false` standing for a
`NULL` source argument.  `destroyOldSource` is the
`destroy_data_control_source` call on the source that previously held the
role. -/
inductive ClipAction where
  | createSource
  | offerMime (mime : String)
  | addListener
  | setSelection (primary : Bool) (sourceBound : Bool)
  | destroyOldSource
  deriving DecidableEq

/-- Embedding of `update_remote_selection` from mpvif-plugin.c as the
trace of remote-protocol requests it issues.  `deviceBound` is whether
`data_control_device` is non-NULL, `oldSourceBound` whether the source
struct for the targeted role currently has a bound object,
`selection_text` the observed host property (`none` for a NULL string),
and `custom` the process-unique marker MIME type.  The `strdup` failure
path is not modelled (allocation is assumed to succeed). -/
def update_remote_selection (deviceBound : Bool) (oldSourceBound : Bool)
    (selection_text : Option String) (primary : Bool) (custom : String) :
    List ClipAction :=
  if !deviceBound then [] else
  match selection_text with
  | none => [.setSelection primary false]
  | some t =>
    if t = "" then [.setSelection primary false]
    else
      [.createSource, .offerMime custom] ++ utf8_mimes.map ClipAction.offerMime ++
        [.addListener, .setSelection primary true] ++
        (if oldSourceBound then [.destroyOldSource] else [])

/-- C6: for every host-side selection change with non-empty text (and the
data control device bound), a fresh source object is created, it is bound
as the primary or regular selection at position 8 of the request trace,
no source teardown happens anywhere before that bind, and when a previous
source held the role it is destroyed at position 9, strictly after the
swap.  So no intermediate state with no source bound is exposed. -/
theorem selection_swap_before_teardown (oldSourceBound primary : Bool)
    (custom t : String) (h : t ≠ "") :
    ((update_remote_selection true oldSourceBound (some t) primary custom).get? 0 =
      some .createSource) ∧
    ((update_remote_selection true oldSourceBound (some t) primary custom).get? 8 =
      some (.setSelection primary true)) ∧
    (ClipAction.destroyOldSource ∉
      (update_remote_selection true oldSourceBound (some t) primary custom).take 9) ∧
    (oldSourceBound = true →
      (update_remote_selection true oldSourceBound (some t) primary custom).get? 9 =
        some .destroyOldSource) := by
  unfold update_remote_selection utf8_mimes
  cases oldSourceBound <;> simp [h, List.get?]

/-- Witness for C6: concrete host selection change "x" replacing a bound
regular-selection source. -/
theorem selection_swap_before_teardown_witness :
    ((update_remote_selection true true (some "x") false
      "x-mpvif-plugin-00000000").get? 0 = some .createSource) ∧
    ((update_remote_selection true true (some "x") false
      "x-mpvif-plugin-00000000").get? 8 = some (.setSelection false true)) ∧
    (ClipAction.destroyOldSource ∉
      (update_remote_selection true true (some "x") false
        "x-mpvif-plugin-00000000").take 9) ∧
    (true = true →
      (update_remote_selection true true (some "x") false
        "x-mpvif-plugin-00000000").get? 9 = some .destroyOldSource) :=
  selection_swap_before_teardown true false "x-mpvif-plugin-00000000" "x"
    (by decide)

/-! ## Clipboard mirror: receiving a remote offer -/

/-- Embedding of the success path of `receive_offer` from mpvif-plugin.c.
`payload` is the concatenation of the chunks read from the transfer pipe
before end-of-file.  The C code then `fwrite`s one explicit NUL byte into
the memstream, closes it (which sets `mem_size` to the total number of
bytes written, NUL included), and calls `mpv_set_property_string` iff
`mem_size` is nonzero.  The result is the buffer handed to the host
property write, or `none` when nothing is pushed. -/
def receive_offer (payload : List Nat) : Option (List Nat) :=
  let mem_data := payload ++ [0]
  let mem_size := mem_data.length
  if mem_size ≠ 0 then some mem_data else none

/-- C7 evaluated at the failing input: a transfer that completes with an
empty payload still pushes to the host — the explicitly written NUL makes
`mem_size = 1`, so the guard `if (mem_size)` is taken and the empty C
string is pushed; indeed no payload can ever make the guard false. -/
theorem empty_payload_still_pushed :
    receive_offer [] = some [0] ∧
    ∀ payload : List Nat, (receive_offer payload).isSome = true := by
  constructor
  · rfl
  · intro payload
    unfold receive_offer
    simp

/-! ## Event reactor loop (mpv_open_cplugin) -/

/-- Readiness results for one polled descriptor: `POLLIN`, and the
error/hangup conditions `POLLERR | POLLHUP | POLLNVAL`. -/
structure PollRevents where
  pollin : Bool
  errHupNval : Bool
  deriving DecidableEq

/-- mpv event kinds relevant to `dispatch_mpv_events`. -/
inductive MpvEventId where
  | shutdown
  | eventNone
  | propertyChange
  | otherEvent
  deriving DecidableEq

/-- Embedding of `dispatch_mpv_events` from mpvif-plugin.c: drain the
queued mpv events; return `-1` when a shutdown notification is reached,
`0` when the queue is exhausted (`MPV_EVENT_NONE`). -/
def dispatch_mpv_events : List MpvEventId → Int
  | [] => 0
  | .shutdown :: _ => -1
  | .eventNone :: _ => 0
  | .propertyChange :: rest => dispatch_mpv_events rest
  | .otherEvent :: rest => dispatch_mpv_events rest

/-- sway IPC event kinds relevant to `dispatch_i3ipc_events`. -/
inductive I3ipcEventType where
  | shutdown
  | outputEvent
  | cursorWarp
  | otherEvent
  deriving DecidableEq

/-- Embedding of `dispatch_i3ipc_events` from mpvif-plugin.c: drain queued
sway IPC events; `-1` on a shutdown event, `0` when drained. -/
def dispatch_i3ipc_events : List I3ipcEventType → Int
  | [] => 0
  | .shutdown :: _ => -1
  | .outputEvent :: rest => dispatch_i3ipc_events rest
  | .cursorWarp :: rest => dispatch_i3ipc_events rest
  | .otherEvent :: rest => dispatch_i3ipc_events rest

/-- One iteration of the reactor loop body of `mpv_open_cplugin`,
translated branch by branch.  `rc` starts at `-1`; the function returns
`none` when the loop continues, and `some rc` when it breaks: `-1` on a
`poll` failure, `-1` on error/hangup of the display fd, `0` when draining
the wakeup pipe reaches a host shutdown notification, `-1` on error/hangup
of the wakeup pipe, `0` when the sway IPC events reach a shutdown event,
`-1` on error/hangup of the sway IPC fd.  (Wayland display readiness only
dispatches protocol events and never breaks the loop, so it does not
appear.) -/
def loop_iteration (pollFailed : Bool) (displayFd wakeupFd i3ipcFd : PollRevents)
    (mpvEvents : List MpvEventId) (i3ipcEvents : List I3ipcEventType) :
    Option Int :=
  if pollFailed then some (-1)
  else if displayFd.errHupNval then some (-1)
  else if wakeupFd.pollin = true ∧ dispatch_mpv_events mpvEvents = -1 then some 0
  else if wakeupFd.errHupNval then some (-1)
  else if i3ipcFd.pollin = true ∧ dispatch_i3ipc_events i3ipcEvents = -1 then some 0
  else if i3ipcFd.errHupNval then some (-1)
  else none

/-- Counterexample for C9 as stated: an error/hangup on the display fd is
a loop termination that is not a poll failure, yet it yields the failure
result `-1`, not success. -/
theorem loop_exit_counterexample :
    ¬ ∀ (pf : Bool) (d w i : PollRevents) (me : List MpvEventId)
        (ie : List I3ipcEventType) (rc : Int),
        loop_iteration pf d w i me ie = some rc → rc = 0 ∨ pf = true := by
  intro h
  have hc := h false ⟨false, true⟩ ⟨false, false⟩ ⟨false, false⟩ [] [] (-1)
    (by decide)
  rcases hc with hc | hc
  · exact absurd hc (by decide)
  · exact absurd hc (by decide)

/-- C9 (amended): a loop termination yields success (`0`) exactly when a
shutdown notification is reached while draining a readable source — the
host-side shutdown via the wakeup pipe, or the sway IPC shutdown event —
and no poll failure or display-fd error/hangup pre-empted it in that
iteration; every other termination (poll failure, or error/hangup on any
polled fd) yields failure (`-1`), and those are the only two exit
results. -/
theorem loop_exit_characterization (pf : Bool) (d w i : PollRevents)
    (me : List MpvEventId) (ie : List I3ipcEventType) :
    (loop_iteration pf d w i me ie = some 0 ↔
      pf = false ∧ d.errHupNval = false ∧
        ((w.pollin = true ∧ dispatch_mpv_events me = -1) ∨
          (w.errHupNval = false ∧ i.pollin = true ∧
            dispatch_i3ipc_events ie = -1))) ∧
    (loop_iteration pf d w i me ie = none ∨
      loop_iteration pf d w i me ie = some 0 ∨
      loop_iteration pf d w i me ie = some (-1)) := by
  unfold loop_iteration
  constructor
  · split_ifs <;> simp_all
  · split_ifs <;> simp

end Mpvif
